import Mathlib

/-!
Verification of the benchmark runner in `src/bench/bench.py` (JuliaIO/JSON.jl
benchmark harness).

The script times JSON parsing of four fixed input files, keeps the minimum of
three repetitions per file (`reduce(min, times)`), prints one line per source,
and finally prints the geometric mean of the per-source minima
(`reduce(lambda a, b: a*b, min_times) ** (1/len(min_times))`).

Modelling choices:
- Python floats are modelled as real numbers (`ℝ`); `**` with a real exponent
  is Mathlib's `Real.rpow`.
- `timeit.repeat(stmt, setup, repeat, number)` is an external collaborator
  (Python standard library, not part of this repository): it is modelled as an
  oracle `String → Nat → Except String (List ℝ)` mapping the timed statement's
  file path and the repetition count to either the list of timing samples or a
  propagated exception (e.g. `FileNotFoundError`, `JSONDecodeError`).
- Python exceptions are modelled with `Except String`; `functools.reduce`
  without an initial value raises `TypeError` on an empty iterable, modelled
  as an `Except.error`.
- Each `print` call appends a structured `Line`; `render` produces the exact
  f-string text, with the `{t:0.06f}` float-to-6-decimals conversion kept
  abstract as a parameter `fmt : ℝ → String` (decimal rendering of IEEE
  floats is not modelled).
-/

namespace Bench

noncomputable section

/-- Python `functools.reduce(f, xs)` with no initial value: raises `TypeError`
on an empty iterable, otherwise folds `f` from the left starting at the first
element (`reduce(f, [a, b, c]) = f(f(a, b), c)`). -/
def reduce (f : ℝ → ℝ → ℝ) : List ℝ → Except String ℝ
  | [] => Except.error "reduce() of empty iterable with no initial value"
  | a :: rest => Except.ok (rest.foldl f a)

/-- The fixed ordered list of source names (`bench.py` line 6). -/
def sources : List String := ["canada", "citm_catalog", "citylots", "twitter"]

/-- The conventional path for a source, as embedded in the timed statement
`with open("../data/{source}.json") as f: json.load(f)` (lines 11-12). -/
def sourcePath (source : String) : String := "../data/" ++ source ++ ".json"

/-- The aggregate of lines 18:
`reduce(lambda a, b: a*b, min_times) ** (1/len(min_times))`.
The `reduce` is evaluated first (and its `TypeError` on an empty list
propagates before the exponentiation, exactly as in Python). -/
def geoMean (minTimes : List ℝ) : Except String ℝ :=
  (reduce (fun a b => a * b) minTimes).map
    (fun p => p ^ ((1 : ℝ) / (minTimes.length : ℝ)))

/-- One printed line of output: either a per-source line
(`f"{source} {t:0.06f} seconds"`, line 15) or the final aggregate line
(`f"Total (G.M): {geo_mean:0.06f}"`, line 19). -/
inductive Line where
  | sourceLine (name : String) (t : ℝ)
  | totalLine (g : ℝ)

/-- The exact text of a printed line, given the float formatter `fmt`
standing for the `{x:0.06f}` conversion. -/
def render (fmt : ℝ → String) : Line → String
  | Line.sourceLine name t => name ++ " " ++ fmt t ++ " seconds"
  | Line.totalLine g => "Total (G.M): " ++ fmt g

/-- The `for source in sources` loop (lines 9-16): for each source, call
`timeit.repeat` (the oracle) on the statement for that source's path with
`repeat=3`, take `reduce(min, times)`, print the per-source line, and append
the minimum to `min_times`. A raised exception aborts the loop, keeping the
lines already printed. -/
def runLoop (oracle : String → Nat → Except String (List ℝ)) :
    List String → List Line → List ℝ → List Line × Except String (List ℝ)
  | [], out, mins => (out, Except.ok mins)
  | source :: rest, out, mins =>
    match oracle (sourcePath source) 3 with
    | Except.error e => (out, Except.error e)
    | Except.ok times =>
      match reduce min times with
      | Except.error e => (out, Except.error e)
      | Except.ok t =>
        runLoop oracle rest (out ++ [Line.sourceLine source t]) (mins ++ [t])

/-- The whole script: run the loop over the fixed source list, then compute
`geo_mean` and print the total line. The result is the list of printed lines
together with `ok` (normal termination) or the propagated exception. -/
def runBench (oracle : String → Nat → Except String (List ℝ)) :
    List Line × Except String Unit :=
  match runLoop oracle sources [] [] with
  | (out, Except.error e) => (out, Except.error e)
  | (out, Except.ok mins) =>
    match geoMean mins with
    | Except.error e => (out, Except.error e)
    | Except.ok g => (out ++ [Line.totalLine g], Except.ok ())

/-- Process termination status: 0 on normal termination, 1 when an unhandled
exception propagates out of the script. -/
def exitCode : Except String Unit → Nat
  | Except.ok _ => 0
  | Except.error _ => 1

end

/-! ### Helper lemmas -/

theorem foldl_min_le (l : List ℝ) :
    ∀ (a : ℝ), ∀ x ∈ a :: l, l.foldl min a ≤ x := by
  induction l with
  | nil => intro a x hx; simp at hx; simp [hx]
  | cons b t ih =>
    intro a x hx
    have hself : t.foldl min (min a b) ≤ min a b := ih (min a b) _ (by simp)
    simp only [List.mem_cons] at hx
    rcases hx with rfl | rfl | hx
    · exact le_trans hself (min_le_left _ _)
    · exact le_trans hself (min_le_right _ _)
    · exact ih (min a b) x (by simp [hx])

theorem foldl_min_mem (l : List ℝ) : ∀ (a : ℝ), l.foldl min a ∈ a :: l := by
  induction l with
  | nil => intro a; simp
  | cons b t ih =>
    intro a
    have h := ih (min a b)
    rcases min_choice a b with hm | hm <;>
      · rw [hm] at h
        simp only [List.foldl_cons]
        rw [hm]
        rcases List.mem_cons.mp h with h' | h' <;> simp [h', List.mem_cons]

theorem foldl_mul_eq_prod (a : ℝ) (l : List ℝ) :
    l.foldl (fun x y => x * y) a = a * l.prod := by
  induction l generalizing a with
  | nil => simp
  | cons b t ih => simp [ih (a * b), mul_assoc]

theorem reduce_mul_ok (a : ℝ) (l : List ℝ) :
    reduce (fun x y => x * y) (a :: l) = Except.ok ((a :: l).prod) := by
  simp [reduce, foldl_mul_eq_prod]

theorem geoMean_ok (a : ℝ) (l : List ℝ) :
    geoMean (a :: l) =
      Except.ok ((a :: l).prod ^ ((1 : ℝ) / ((a :: l).length : ℝ))) := by
  simp [geoMean, reduce_mul_ok]
  rfl

/-! ### Unfolding lemmas for the main loop -/

theorem runLoop_cons (oracle : String → Nat → Except String (List ℝ))
    (s : String) (rest : List String) (out : List Line) (mins : List ℝ)
    (t : ℝ) (times : List ℝ)
    (hs : oracle (sourcePath s) 3 = Except.ok (t :: times)) :
    runLoop oracle (s :: rest) out mins =
      runLoop oracle rest (out ++ [Line.sourceLine s (times.foldl min t)])
        (mins ++ [times.foldl min t]) := by
  simp [runLoop, hs, reduce]

theorem runBench_success (oracle : String → Nat → Except String (List ℝ))
    (a1 a2 a3 b1 b2 b3 c1 c2 c3 d1 d2 d3 : ℝ)
    (hA : oracle (sourcePath "canada") 3 = Except.ok [a1, a2, a3])
    (hB : oracle (sourcePath "citm_catalog") 3 = Except.ok [b1, b2, b3])
    (hC : oracle (sourcePath "citylots") 3 = Except.ok [c1, c2, c3])
    (hD : oracle (sourcePath "twitter") 3 = Except.ok [d1, d2, d3]) :
    runBench oracle =
      ([Line.sourceLine "canada" (min (min a1 a2) a3),
        Line.sourceLine "citm_catalog" (min (min b1 b2) b3),
        Line.sourceLine "citylots" (min (min c1 c2) c3),
        Line.sourceLine "twitter" (min (min d1 d2) d3),
        Line.totalLine
          ((min (min a1 a2) a3 * min (min b1 b2) b3 * min (min c1 c2) c3 *
            min (min d1 d2) d3) ^ ((1 : ℝ) / 4))],
        Except.ok ()) := by
  unfold runBench sources
  rw [runLoop_cons oracle _ _ _ _ _ _ hA, runLoop_cons oracle _ _ _ _ _ _ hB,
    runLoop_cons oracle _ _ _ _ _ _ hC, runLoop_cons oracle _ _ _ _ _ _ hD]
  simp only [runLoop, List.nil_append, List.cons_append, List.foldl_cons,
    List.foldl_nil]
  rw [geoMean_ok]
  simp only [List.prod_cons, List.prod_nil, List.length_cons, List.length_nil]
  norm_num [mul_assoc]

theorem runLoop_out_sourceLines (oracle : String → Nat → Except String (List ℝ))
    (srcs : List String) :
    ∀ (out : List Line) (mins : List ℝ),
      (∀ l ∈ out, ∃ n t, l = Line.sourceLine n t) →
      ∀ l ∈ (runLoop oracle srcs out mins).1, ∃ n t, l = Line.sourceLine n t := by
  induction srcs with
  | nil => intro out mins hout; simpa [runLoop] using hout
  | cons s rest ih =>
    intro out mins hout
    cases hres : oracle (sourcePath s) 3 with
    | error e => simpa [runLoop, hres] using hout
    | ok times =>
      cases times with
      | nil => simpa [runLoop, hres, reduce] using hout
      | cons t ts =>
        rw [runLoop_cons oracle _ _ _ _ _ _ hres]
        refine ih _ _ ?_
        intro l hl
        rcases List.mem_append.mp hl with hl' | hl'
        · exact hout l hl'
        · simp only [List.mem_singleton] at hl'
          exact ⟨s, ts.foldl min t, hl'⟩

theorem runLoop_ok_oracle (oracle : String → Nat → Except String (List ℝ))
    (srcs : List String) :
    ∀ (out : List Line) (mins mins' : List ℝ),
      (runLoop oracle srcs out mins).2 = Except.ok mins' →
      ∀ s ∈ srcs, ∃ ts, oracle (sourcePath s) 3 = Except.ok ts := by
  induction srcs with
  | nil => intro out mins mins' hok s hs; simp at hs
  | cons s0 rest ih =>
    intro out mins mins' hok s hs
    cases hres : oracle (sourcePath s0) 3 with
    | error e =>
      rw [show runLoop oracle (s0 :: rest) out mins = (out, Except.error e) by
        simp [runLoop, hres]] at hok
      exact absurd hok (by simp)
    | ok times =>
      cases times with
      | nil =>
        rw [show runLoop oracle (s0 :: rest) out mins =
            (out, Except.error "reduce() of empty iterable with no initial value") by
          simp [runLoop, hres, reduce]] at hok
        exact absurd hok (by simp)
      | cons t ts =>
        rw [runLoop_cons oracle _ _ _ _ _ _ hres] at hok
        rcases List.mem_cons.mp hs with rfl | hs'
        · exact ⟨t :: ts, hres⟩
        · exact ih _ _ _ hok s hs'

/-! ### Claims about the per-source minimum and the aggregate -/

/-- Claim C1: for a source measured with `repeat=3`, `reduce(min, times)` over
the three non-negative timing samples succeeds and returns a value that is at
most every individual sample and is itself one of the samples (achieved, not
interpolated). -/
theorem C1_min_of_three_samples (t1 t2 t3 : ℝ)
    (h1 : 0 ≤ t1) (h2 : 0 ≤ t2) (h3 : 0 ≤ t3) :
    ∃ t, reduce min [t1, t2, t3] = Except.ok t ∧
      (∀ x ∈ [t1, t2, t3], t ≤ x) ∧ t ∈ [t1, t2, t3] :=
  ⟨[t2, t3].foldl min t1, rfl, foldl_min_le [t2, t3] t1, foldl_min_mem [t2, t3] t1⟩

/-- Witness for C1 at the concrete samples 3, 1, 2. -/
theorem C1_min_of_three_samples_witness :
    ∃ t, reduce min [(3 : ℝ), 1, 2] = Except.ok t ∧
      (∀ x ∈ [(3 : ℝ), 1, 2], t ≤ x) ∧ t ∈ [(3 : ℝ), 1, 2] :=
  C1_min_of_three_samples 3 1 2 (by norm_num) (by norm_num) (by norm_num)

/-- Claim C2: the aggregate of a four-element sequence of minimum times is the
product of all values raised to the power `1 / length` (here length 4). -/
theorem C2_aggregate_is_root_of_product (a b c d : ℝ) :
    geoMean [a, b, c, d] =
      Except.ok (([a, b, c, d] : List ℝ).prod ^
        ((1 : ℝ) / ((([a, b, c, d] : List ℝ).length : ℕ) : ℝ))) :=
  geoMean_ok a [b, c, d]

/-- Claim C6: the aggregate is invariant under reordering of its input: for
every nonempty sequence of positive minimum times and every permutation of it,
the computed geometric mean is equal. -/
theorem C6_aggregate_perm_invariant (l l' : List ℝ) (hne : l ≠ [])
    (hperm : l.Perm l') (hpos : ∀ x ∈ l, 0 < x) :
    geoMean l = geoMean l' := by
  rcases l with _ | ⟨a, t⟩
  · exact absurd rfl hne
  rcases l' with _ | ⟨a', t'⟩
  · have := hperm.length_eq
    simp at this
  have hp : ((a :: t) : List ℝ).prod = ((a' :: t') : List ℝ).prod := hperm.prod_eq
  have hl : ((a :: t) : List ℝ).length = ((a' :: t') : List ℝ).length :=
    hperm.length_eq
  rw [geoMean_ok, geoMean_ok, hp, hl]

/-- Witness for C6: swapping the two elements of `[1, 2]` leaves the aggregate
unchanged. -/
theorem C6_aggregate_perm_invariant_witness :
    geoMean [(1 : ℝ), 2] = geoMean [(2 : ℝ), 1] :=
  C6_aggregate_perm_invariant [1, 2] [2, 1] (by simp) (List.Perm.swap 2 1 [])
    (by intro x hx; fin_cases hx <;> norm_num)

/-- Claim C7: the aggregate of four equal positive values `[v, v, v, v]` is
`v` exactly. -/
theorem C7_aggregate_four_equal (v : ℝ) (hv : 0 < v) :
    geoMean [v, v, v, v] = Except.ok v := by
  rw [geoMean_ok]
  have hprod : (([v, v, v, v]) : List ℝ).prod = v ^ (4 : ℕ) := by
    simp [List.prod_cons]
    ring
  have hlen : (((([v, v, v, v]) : List ℝ).length : ℕ) : ℝ) = 4 := by norm_num
  rw [hprod, hlen, ← Real.rpow_natCast v 4, ← Real.rpow_mul hv.le]
  rw [show ((4 : ℕ) : ℝ) * ((1 : ℝ) / 4) = 1 by norm_num, Real.rpow_one]

/-- Witness for C7 at `v = 2`. -/
theorem C7_aggregate_four_equal_witness :
    geoMean [(2 : ℝ), 2, 2, 2] = Except.ok 2 :=
  C7_aggregate_four_equal 2 (by norm_num)

/-- Claim C8: the aggregate of a single positive value `[v]` is `v` itself. -/
theorem C8_aggregate_single (v : ℝ) (hv : 0 < v) :
    geoMean [v] = Except.ok v := by
  rw [geoMean_ok]
  norm_num [Real.rpow_one]

/-- Witness for C8 at `v = 3`. -/
theorem C8_aggregate_single_witness : geoMean [(3 : ℝ)] = Except.ok 3 :=
  C8_aggregate_single 3 (by norm_num)

/-- Counterexample for C9 as stated: with a minimum time of exactly zero (the
others non-negative), the computation does not yield a complex or undefined
result; it silently returns the well-defined real value 0
(`0 * 1 * 1 * 1 = 0` and `0 ** 0.25 = 0`). -/
theorem C9_zero_counterexample : geoMean [(0 : ℝ), 1, 1, 1] = Except.ok 0 := by
  rw [geoMean_ok]
  norm_num

/-- Claim C9 (amended): if any per-source minimum time is exactly zero and all
entries are non-negative, the geometric-mean computation silently produces the
real value 0 rather than failing loudly (a complex value would require a
negative product, impossible with non-negative samples). -/
theorem C9_aggregate_zero_silent (l : List ℝ) (hne : l ≠ [])
    (h0 : (0 : ℝ) ∈ l) (hnn : ∀ x ∈ l, 0 ≤ x) :
    geoMean l = Except.ok 0 := by
  rcases l with _ | ⟨a, t⟩
  · exact absurd rfl hne
  rw [geoMean_ok]
  have hlen : (((a :: t : List ℝ).length : ℕ) : ℝ) ≠ 0 :=
    Nat.cast_ne_zero.mpr (by simp)
  rw [List.prod_eq_zero h0, Real.zero_rpow (one_div_ne_zero hlen)]

/-- Witness for C9 (amended) at `[0, 1, 2, 3]`. -/
theorem C9_aggregate_zero_silent_witness :
    geoMean [(0 : ℝ), 1, 2, 3] = Except.ok 0 :=
  C9_aggregate_zero_silent [0, 1, 2, 3] (by simp) (by simp)
    (by intro x hx; fin_cases hx <;> norm_num)

/-- Claim C10: the aggregate of an empty sequence of minimum times raises an
error (Python `functools.reduce` with no initial value on an empty iterable)
instead of returning any number. -/
theorem C10_aggregate_empty_raises :
    geoMean ([] : List ℝ) =
      Except.error "reduce() of empty iterable with no initial value" := rfl

/-! ### Claims about the top-level control flow and output -/

/-- Claim C3: the top-level control iterates exactly the fixed ordered list of
4 source names (canada, citm_catalog, citylots, twitter) in that order; for
each it queries the timer at the conventional path `../data/<name>.json` with
`repeat=3`, prints the per-source line, collects the minimum times in input
order, and prints the aggregate of the collected sequence last. -/
theorem C3_top_level_control (oracle : String → Nat → Except String (List ℝ))
    (a1 a2 a3 b1 b2 b3 c1 c2 c3 d1 d2 d3 : ℝ)
    (hA : oracle (sourcePath "canada") 3 = Except.ok [a1, a2, a3])
    (hB : oracle (sourcePath "citm_catalog") 3 = Except.ok [b1, b2, b3])
    (hC : oracle (sourcePath "citylots") 3 = Except.ok [c1, c2, c3])
    (hD : oracle (sourcePath "twitter") 3 = Except.ok [d1, d2, d3]) :
    runBench oracle =
      ([Line.sourceLine "canada" (min (min a1 a2) a3),
        Line.sourceLine "citm_catalog" (min (min b1 b2) b3),
        Line.sourceLine "citylots" (min (min c1 c2) c3),
        Line.sourceLine "twitter" (min (min d1 d2) d3),
        Line.totalLine
          ((min (min a1 a2) a3 * min (min b1 b2) b3 * min (min c1 c2) c3 *
            min (min d1 d2) d3) ^ ((1 : ℝ) / 4))],
        Except.ok ()) :=
  runBench_success oracle a1 a2 a3 b1 b2 b3 c1 c2 c3 d1 d2 d3 hA hB hC hD

/-- Witness for C3 with a concrete oracle returning samples `[1, 2, 3]` for
every path. -/
theorem C3_top_level_control_witness :
    runBench (fun _ _ => Except.ok [(1 : ℝ), 2, 3]) =
      ([Line.sourceLine "canada" (min (min (1 : ℝ) 2) 3),
        Line.sourceLine "citm_catalog" (min (min (1 : ℝ) 2) 3),
        Line.sourceLine "citylots" (min (min (1 : ℝ) 2) 3),
        Line.sourceLine "twitter" (min (min (1 : ℝ) 2) 3),
        Line.totalLine
          ((min (min (1 : ℝ) 2) 3 * min (min (1 : ℝ) 2) 3 *
            min (min (1 : ℝ) 2) 3 * min (min (1 : ℝ) 2) 3) ^ ((1 : ℝ) / 4))],
        Except.ok ()) :=
  C3_top_level_control (fun _ _ => Except.ok [(1 : ℝ), 2, 3])
    1 2 3 1 2 3 1 2 3 1 2 3 rfl rfl rfl rfl

/-- Claim C4: on a successful run over the 4 well-formed input files (the
timer succeeds with 3 samples for each source), the program writes exactly 5
output lines: the first 4 each start with the respective source name followed
by the formatted minimum time and the literal word "seconds", and the 5th is
"Total (G.M): " followed by the formatted geometric mean. -/
theorem C4_success_output_lines (oracle : String → Nat → Except String (List ℝ))
    (fmt : ℝ → String)
    (h : ∀ s ∈ sources, ∃ x y z : ℝ, oracle (sourcePath s) 3 = Except.ok [x, y, z]) :
    ∃ m1 m2 m3 m4 g : ℝ,
      (runBench oracle).1.map (render fmt) =
        ["canada " ++ fmt m1 ++ " seconds",
         "citm_catalog " ++ fmt m2 ++ " seconds",
         "citylots " ++ fmt m3 ++ " seconds",
         "twitter " ++ fmt m4 ++ " seconds",
         "Total (G.M): " ++ fmt g] := by
  obtain ⟨a1, a2, a3, hA⟩ := h "canada" (by simp [sources])
  obtain ⟨b1, b2, b3, hB⟩ := h "citm_catalog" (by simp [sources])
  obtain ⟨c1, c2, c3, hC⟩ := h "citylots" (by simp [sources])
  obtain ⟨d1, d2, d3, hD⟩ := h "twitter" (by simp [sources])
  refine ⟨min (min a1 a2) a3, min (min b1 b2) b3, min (min c1 c2) c3,
    min (min d1 d2) d3,
    (min (min a1 a2) a3 * min (min b1 b2) b3 * min (min c1 c2) c3 *
      min (min d1 d2) d3) ^ ((1 : ℝ) / 4), ?_⟩
  rw [runBench_success oracle a1 a2 a3 b1 b2 b3 c1 c2 c3 d1 d2 d3 hA hB hC hD]
  simp [render]

/-- Witness for C4 with a concrete oracle and a constant formatter. -/
theorem C4_success_output_lines_witness :
    ∃ m1 m2 m3 m4 g : ℝ,
      (runBench (fun _ _ => Except.ok [(1 : ℝ), 1, 1])).1.map
          (render (fun _ => "T")) =
        ["canada " ++ "T" ++ " seconds",
         "citm_catalog " ++ "T" ++ " seconds",
         "citylots " ++ "T" ++ " seconds",
         "twitter " ++ "T" ++ " seconds",
         "Total (G.M): " ++ "T"] :=
  C4_success_output_lines (fun _ _ => Except.ok [(1 : ℝ), 1, 1])
    (fun _ => "T") (fun s _ => ⟨1, 1, 1, rfl⟩)

/-- Claim C5: if the timer raises for the citylots file (e.g. the file does
not exist), the run terminates with a non-zero status and no "Total (G.M):"
line is ever printed (no local recovery). -/
theorem C5_missing_file_aborts (oracle : String → Nat → Except String (List ℝ))
    (e : String)
    (h : oracle (sourcePath "citylots") 3 = Except.error e) :
    exitCode (runBench oracle).2 ≠ 0 ∧
      ∀ l ∈ (runBench oracle).1, ∀ g, l ≠ Line.totalLine g := by
  have hfail : ∀ mins', (runLoop oracle sources [] []).2 ≠ Except.ok mins' := by
    intro mins' hok
    obtain ⟨ts, hts⟩ :=
      runLoop_ok_oracle oracle sources [] [] mins' hok "citylots" (by simp [sources])
    rw [h] at hts
    exact Except.noConfusion hts
  rcases hr : runLoop oracle sources [] [] with ⟨out, r⟩
  cases r with
  | ok mins => exact absurd (by rw [hr]) (hfail mins)
  | error e2 =>
    have hb : runBench oracle = (out, Except.error e2) := by
      unfold runBench
      rw [hr]
    have hout : ∀ l ∈ out, ∃ n t, l = Line.sourceLine n t := by
      intro l hl
      exact runLoop_out_sourceLines oracle sources [] [] (by simp) l
        (by rw [hr]; exact hl)
    rw [hb]
    constructor
    · simp [exitCode]
    · intro l hl g
      obtain ⟨n, t, rfl⟩ := hout l hl
      exact fun hcontra => Line.noConfusion hcontra

/-- Witness for C5 with a concrete oracle that raises FileNotFoundError for
the citylots path and succeeds elsewhere. -/
theorem C5_missing_file_aborts_witness :
    exitCode (runBench (fun p _ => if p = sourcePath "citylots"
        then Except.error "FileNotFoundError" else Except.ok [(1 : ℝ), 1, 1])).2 ≠ 0 ∧
      ∀ l ∈ (runBench (fun p _ => if p = sourcePath "citylots"
          then Except.error "FileNotFoundError" else Except.ok [(1 : ℝ), 1, 1])).1,
        ∀ g, l ≠ Line.totalLine g :=
  C5_missing_file_aborts _ "FileNotFoundError" (if_pos rfl)

end Bench
